import Mathlib

/-!
Verification of the seg2mesh pipeline (`src/main.py`) against its design
specification.  The development shallowly embeds the parts of the program the
claims are about: the label-compositing fold, the resampling geometry, the
remeshing target arithmetic, and the driver's control flow and output writes.
Images in the source are uint8 SimpleITK volumes, so voxelwise arithmetic
wraps modulo 256; Python floats are modelled as rationals, and fallible
Python operations return `Except`/`Option`.  Two external filters that the
source only configures (the morphological closing of line 55 and the
constrained smoother of lines 85-87) are modelled from the specification's
contracts, as marked on their definitions.
-/

/-- Voxel coordinates of a 3-D grid. -/
abbrev Voxel : Type := ℤ × ℤ × ℤ

/-- Componentwise translation of a voxel coordinate by an offset. -/
def voxAdd (p o : Voxel) : Voxel := (p.1 + o.1, p.2.1 + o.2.1, p.2.2 + o.2.2)

/-- Body of the compositing loop (src/main.py lines 60-62):
`composite += volume; composite[composite > (i + 2)] = i + 2`, where `i` is
the 0-based position within `volumes[1:]`.  The images are uint8, so the
voxelwise addition wraps modulo 256; the masked assignment replaces every
value above `i + 2` by `i + 2`. -/
def compositeStep (i : ℕ) (c v : Voxel → ℕ) : Voxel → ℕ :=
  fun p =>
    let s := (c p + v p) % 256
    if i + 2 < s then i + 2 else s

/-- The compositing fold over `volumes[1:]` (src/main.py lines 60-62). -/
def compositeLoop : List (Voxel → ℕ) → ℕ → (Voxel → ℕ) → (Voxel → ℕ)
  | [], _, c => c
  | v :: rest, i, c => compositeLoop rest (i + 1) (compositeStep i c v)

/-- `composite = volumes[0]` followed by the loop (src/main.py lines 59-62);
indexing an empty list raises IndexError in Python, hence `Option`. -/
def compositeOf : List (Voxel → ℕ) → Option (Voxel → ℕ)
  | [] => none
  | v :: rest => some (compositeLoop rest 0 v)

/-- The clamp sequence of the specification's compositing formula (§4.3):
for i in 1..N-1 replace a value above i+1 by i+1.  Written from the spec's
pseudocode for the refinement comparison, not from the source. -/
def specClamp (N x : ℕ) : ℕ :=
  (List.range (N - 1)).foldl (fun a j => if j + 2 < a then j + 2 else a) x

/-- The specification's compositing formula (§4.3): first sum all volumes
voxel-wise, then apply the clamp sequence.  Written from the spec's
pseudocode for the refinement comparison, not from the source. -/
def compositeSpec (vols : List (Voxel → ℕ)) : Voxel → ℕ :=
  fun p => specClamp vols.length ((vols.map (fun v => v p)).foldl (fun a b => a + b) 0)

/-- The volume at 0-based position `i` of the list carries only the single
label `k + i`; with `k = 1` this is the pipeline invariant that volume `i`
holds value `i + 1` where structure `i` is present and 0 elsewhere
(established by `* (i + 1)` at src/main.py line 55). -/
def PositionalFrom : ℕ → List (Voxel → ℕ) → Prop
  | _, [] => True
  | k, v :: rest => (∀ p, v p = 0 ∨ v p = k) ∧ PositionalFrom (k + 1) rest

/-- No voxel is claimed (nonzero) by more than one volume of the list. -/
def DisjointSupports : List (Voxel → ℕ) → Prop
  | [] => True
  | v :: rest => (∀ p, v p ≠ 0 → ∀ w ∈ rest, w p = 0) ∧ DisjointSupports rest

/-- Highest voxel value among the volumes at `p` (0 when none claims it). -/
def maxValueAt (vols : List (Voxel → ℕ)) (p : Voxel) : ℕ :=
  (vols.map (fun v => v p)).foldl max 0

/-- Per-voxel union: the voxel takes the nonzero value claiming it (the
unique one under disjoint supports, the last one in general), or 0. -/
def unionAt (vols : List (Voxel → ℕ)) (p : Voxel) : ℕ :=
  (vols.map (fun v => v p)).foldl (fun a x => if x = 0 then a else x) 0

lemma compositeStep_max (i : ℕ) (c v : Voxel → ℕ) (p : Voxel)
    (hc : c p ≤ i + 1) (hv : v p = 0 ∨ v p = i + 2) (hi : i ≤ 125) :
    compositeStep i c v p = max (c p) (v p) := by
  rcases hv with hv | hv
  · have hm : (c p + v p) % 256 = c p := by
      rw [hv, Nat.add_zero, Nat.mod_eq_of_lt]; omega
    show (if i + 2 < (c p + v p) % 256 then i + 2 else (c p + v p) % 256) = _
    rw [hm, hv, if_neg (by omega), max_eq_left (Nat.zero_le _)]
  · have hm : (c p + v p) % 256 = c p + v p := by
      rw [Nat.mod_eq_of_lt]; omega
    show (if i + 2 < (c p + v p) % 256 then i + 2 else (c p + v p) % 256) = _
    rw [hm]
    rcases Nat.eq_zero_or_pos (c p) with h0 | h0
    · rw [h0, if_neg (by omega), Nat.zero_add, max_eq_right (Nat.zero_le _)]
    · rw [if_pos (by omega), hv, max_eq_right (by omega)]

lemma compositeLoop_eq_max (rest : List (Voxel → ℕ)) :
    ∀ (k : ℕ) (c : Voxel → ℕ) (p : Voxel),
      PositionalFrom (k + 2) rest → k + 2 + rest.length ≤ 128 → c p ≤ k + 1 →
      compositeLoop rest k c p = (rest.map (fun v => v p)).foldl max (c p) := by
  induction rest with
  | nil => intro k c p _ _ _; rfl
  | cons v tl ih =>
    intro k c p hpos hlen hc
    obtain ⟨hv, htl⟩ := hpos
    have hstep : compositeStep k c v p = max (c p) (v p) :=
      compositeStep_max k c v p hc (hv p) (by simp [List.length_cons] at hlen; omega)
    have hle : max (c p) (v p) ≤ (k + 1) + 1 := by
      apply max_le
      · omega
      · rcases hv p with h | h <;> omega
    have htl' : PositionalFrom (k + 1 + 2) tl := by
      have h : k + 1 + 2 = k + 2 + 1 := by omega
      rw [h]; exact htl
    have hlen' : k + 1 + 2 + tl.length ≤ 128 := by
      simp [List.length_cons] at hlen; omega
    have hc' : compositeStep k c v p ≤ k + 1 + 1 := by rw [hstep]; exact hle
    simp only [compositeLoop, List.map_cons, List.foldl_cons]
    rw [ih (k + 1) (compositeStep k c v) p htl' hlen' hc', hstep]

lemma compositeOf_eq_max (vols : List (Voxel → ℕ)) (hpos : PositionalFrom 1 vols)
    (hlen : vols.length ≤ 127) (hne : vols ≠ []) :
    ∃ c, compositeOf vols = some c ∧ ∀ p, c p = maxValueAt vols p := by
  match vols, hpos with
  | [], _ => exact absurd rfl hne
  | v :: rest, ⟨hv, hrest⟩ =>
    refine ⟨_, rfl, fun p => ?_⟩
    have h0 : v p ≤ 0 + 1 := by rcases hv p with h | h <;> omega
    have hmain := compositeLoop_eq_max rest 0 v p hrest
      (by simp [List.length_cons] at hlen; omega) h0
    rw [hmain, maxValueAt, List.map_cons, List.foldl_cons,
      max_eq_right (Nat.zero_le _)]

/-- C1: for three single-label volumes on the same grid carrying labels 1, 2
and 3, the composite produced by src/main.py lines 59-62 has value 3 at any
voxel where all three structures overlap, and also value 3 at any voxel
where only structures 1 and 3 (not 2) overlap. -/
theorem composite_overlap_rule (v1 v2 v3 : Voxel → ℕ) (p : Voxel)
    (hpos : PositionalFrom 1 [v1, v2, v3])
    (h1 : v1 p = 1) (h3 : v3 p = 3) (h2 : v2 p = 2 ∨ v2 p = 0) :
    ∃ c, compositeOf [v1, v2, v3] = some c ∧ c p = 3 := by
  refine ⟨_, rfl, ?_⟩
  show compositeStep 1 (compositeStep 0 v1 v2) v3 p = 3
  rcases h2 with h2 | h2 <;> simp [compositeStep, h1, h2, h3]

/-- Witness for C1 at three constant volumes overlapping everywhere. -/
theorem composite_overlap_rule_wit :
    ∃ c, compositeOf [fun _ => 1, fun _ => 2, fun _ => (3 : ℕ)] = some c ∧
      c (0, 0, 0) = 3 :=
  composite_overlap_rule _ _ _ (0, 0, 0)
    ⟨fun _ => Or.inr rfl, fun _ => Or.inr rfl, fun _ => Or.inr rfl, trivial⟩
    rfl rfl (Or.inl rfl)

/-- Single-label volumes for the compositing counterexample: structure 1
present everywhere, structure 2 absent, structure 3 present everywhere. -/
def cexVol1 : Voxel → ℕ := fun _ => 1

/-- Structure 2's volume for the counterexample: absent everywhere. -/
def cexVol2 : Voxel → ℕ := fun _ => 0

/-- Structure 3's volume for the counterexample: present everywhere. -/
def cexVol3 : Voxel → ℕ := fun _ => 3

/-- C2 counterexample: on three single-label volumes satisfying the claim's
precondition (volume i holds i+1 where present), the code's composite
(src/main.py lines 59-62) is 3 at the origin voxel while the spec formula
(sum first, then the whole clamp loop) gives 2: the two disagree. -/
theorem composite_specFormula_cex :
    PositionalFrom 1 [cexVol1, cexVol2, cexVol3] ∧
    (compositeOf [cexVol1, cexVol2, cexVol3]).map (fun c => c (0, 0, 0)) = some 3 ∧
    compositeSpec [cexVol1, cexVol2, cexVol3] (0, 0, 0) = 2 :=
  ⟨⟨fun _ => Or.inr rfl, fun _ => Or.inl rfl, fun _ => Or.inr rfl, trivial⟩,
    rfl, rfl⟩

/-- C2 (amended): on positionally labelled single-label volumes (at most 127
of them, keeping uint8 arithmetic exact) the composite of src/main.py lines
59-62 equals the per-voxel highest claiming label; the spec's sum-then-clamp
formula as written does not compute this. -/
theorem composite_eq_highest_label (vols : List (Voxel → ℕ))
    (hpos : PositionalFrom 1 vols) (hlen : vols.length ≤ 127) (hne : vols ≠ []) :
    ∃ c, compositeOf vols = some c ∧ ∀ p, c p = maxValueAt vols p :=
  compositeOf_eq_max vols hpos hlen hne

/-- Witness for the amended C2 at a single constant volume. -/
theorem composite_eq_highest_label_wit :
    ∃ c, compositeOf [fun _ => (1 : ℕ)] = some c ∧
      ∀ p, c p = maxValueAt [fun _ => (1 : ℕ)] p :=
  composite_eq_highest_label _ ⟨fun _ => Or.inr rfl, trivial⟩ (by decide)
    (List.cons_ne_nil _ _)

lemma foldl_max_of_tail_zero (p : Voxel) :
    ∀ (tl : List (Voxel → ℕ)) (a : ℕ), (∀ w ∈ tl, w p = 0) →
      (tl.map (fun w => w p)).foldl max a = a := by
  intro tl
  induction tl with
  | nil => intro a _; rfl
  | cons w tl ih =>
    intro a h
    rw [List.map_cons, List.foldl_cons, h w (List.mem_cons_self w tl),
      max_eq_left (Nat.zero_le _)]
    exact ih a (fun u hu => h u (List.mem_cons_of_mem w hu))

lemma foldl_union_of_tail_zero (p : Voxel) :
    ∀ (tl : List (Voxel → ℕ)) (a : ℕ), (∀ w ∈ tl, w p = 0) →
      (tl.map (fun w => w p)).foldl (fun a x => if x = 0 then a else x) a = a := by
  intro tl
  induction tl with
  | nil => intro a _; rfl
  | cons w tl ih =>
    intro a h
    rw [List.map_cons, List.foldl_cons, h w (List.mem_cons_self w tl), if_pos rfl]
    exact ih a (fun u hu => h u (List.mem_cons_of_mem w hu))

lemma unionAt_eq_maxValueAt :
    ∀ (vols : List (Voxel → ℕ)) (k : ℕ), 1 ≤ k →
      PositionalFrom k vols → DisjointSupports vols →
      ∀ p, unionAt vols p = maxValueAt vols p := by
  intro vols
  induction vols with
  | nil => intro k _ _ _ p; rfl
  | cons v tl ih =>
    intro k hk hpos hdis p
    obtain ⟨hv, htl⟩ := hpos
    obtain ⟨hd, hdtl⟩ := hdis
    rcases hv p with h0 | hlab
    · have h1 : unionAt (v :: tl) p = unionAt tl p := by
        unfold unionAt
        rw [List.map_cons, List.foldl_cons, h0, if_pos rfl]
      have h2 : maxValueAt (v :: tl) p = maxValueAt tl p := by
        unfold maxValueAt
        rw [List.map_cons, List.foldl_cons, h0, max_eq_left (Nat.zero_le _)]
      rw [h1, h2]
      exact ih (k + 1) (le_trans hk (Nat.le_succ k)) htl hdtl p
    · have hvne : v p ≠ 0 := by rw [hlab]; omega
      have hz : ∀ w ∈ tl, w p = 0 := hd p hvne
      unfold unionAt maxValueAt
      rw [List.map_cons, List.foldl_cons, List.foldl_cons,
        if_neg hvne, max_eq_right (Nat.zero_le _),
        foldl_max_of_tail_zero p tl (v p) hz,
        foldl_union_of_tail_zero p tl (v p) hz]

/-- A volume claiming the origin voxel with label 3. -/
def cexVolA : Voxel → ℕ := fun p => if p = (0, 0, 0) then 3 else 0

/-- A volume claiming a different voxel with label 1. -/
def cexVolB : Voxel → ℕ := fun p => if p = (1, 0, 0) then 1 else 0

/-- C7 counterexample: two single-label volumes with disjoint supports, fed
to the compositing step in the order (label 3, label 1): the composite takes
value 2 at the origin, while the per-voxel union takes value 3, so the
composite does not equal the union for every ordering of single-label
volumes with fixed labels. -/
theorem disjoint_union_order_cex :
    DisjointSupports [cexVolA, cexVolB] ∧
    (compositeOf [cexVolA, cexVolB]).map (fun c => c (0, 0, 0)) = some 2 ∧
    unionAt [cexVolA, cexVolB] (0, 0, 0) = 3 := by
  refine ⟨⟨?_, ?_, trivial⟩, by decide, by decide⟩
  · intro p hp w hw
    rw [List.mem_singleton.mp hw]
    have hp0 : p = ((0 : ℤ), (0 : ℤ), (0 : ℤ)) := by
      by_contra hne
      apply hp
      simp only [cexVolA]
      rw [if_neg hne]
    rw [hp0]
    decide
  · intro p hp w hw
    exact absurd hw (List.not_mem_nil w)

/-- C7 (amended): when each volume's single label equals its 1-based position
in the sequence -- the invariant the pipeline establishes at src/main.py line
55, under any ordering of the underlying masks -- and the supports are
pairwise disjoint, the composite of src/main.py lines 59-62 equals the
per-voxel union. -/
theorem composite_disjoint_union (vols : List (Voxel → ℕ))
    (hpos : PositionalFrom 1 vols) (hdis : DisjointSupports vols)
    (hlen : vols.length ≤ 127) (hne : vols ≠ []) :
    ∃ c, compositeOf vols = some c ∧ ∀ p, c p = unionAt vols p := by
  obtain ⟨c, hc, hmax⟩ := compositeOf_eq_max vols hpos hlen hne
  exact ⟨c, hc, fun p => by
    rw [hmax p, unionAt_eq_maxValueAt vols 1 le_rfl hpos hdis p]⟩

/-- Witness for the amended C7 at a single everywhere-present volume. -/
theorem composite_disjoint_union_wit :
    ∃ c, compositeOf [fun _ => (1 : ℕ)] = some c ∧
      ∀ p, c p = unionAt [fun _ => (1 : ℕ)] p :=
  composite_disjoint_union _ ⟨fun _ => Or.inr rfl, trivial⟩
    ⟨fun _ _ w hw => absurd hw (List.not_mem_nil w), trivial⟩ (by decide)
    (List.cons_ne_nil _ _)

/-- Geometry of a SimpleITK image: dimensions, spacing, origin and direction
(voxel data is modelled separately as `Voxel → ℕ`).  Dimensions are integers
because the target dimensions of src/main.py line 43 come out of Python
`int()`. -/
structure VolumeGrid where
  size : Fin 3 → ℤ
  spacing : Fin 3 → ℚ
  origin : Fin 3 → ℚ
  direction : Fin 3 → Fin 3 → ℚ

/-- Python `int()` on a rational: truncation toward zero. -/
def pyInt (q : ℚ) : ℤ := if 0 ≤ q then ⌊q⌋ else ⌈q⌉

/-- Round half up, the `round` of the specification (§4.1). -/
def roundHalfUp (q : ℚ) : ℤ := ⌊q + 1 / 2⌋

/-- Uncaught Python errors of the run, plus the spec's error taxonomy where
the claims mention it.  `invalidGeometry` is modelled from the spec (§7 names
`InvalidGeometry`); the source never defines or raises it. -/
inductive MainErr where
  | attributeNone
  | zeroDivision
  | structureFail (i : ℕ)
  | invalidGeometry
  deriving DecidableEq

/-- `scale = [s / config.voxel_resample_length for s in largest_image.GetSpacing()]`
(src/main.py line 42); Python raises ZeroDivisionError when the divisor is
zero. -/
def computeScale (ref : VolumeGrid) (L : ℚ) : Except MainErr (Fin 3 → ℚ) :=
  if L = 0 then .error .zeroDivision else .ok (fun a => ref.spacing a / L)

/-- `target_dim = [int(s * d + 0.5) for (s, d) in zip(scale, largest_image.GetSize())]`
(src/main.py line 43). -/
def target_dim (scale : Fin 3 → ℚ) (ref : VolumeGrid) : Fin 3 → ℤ :=
  fun a => pyInt (scale a * (ref.size a : ℚ) + 1 / 2)

/-- Output geometry of the `sitk.Resample` call (src/main.py lines 46-54):
the resampled image carries exactly the size, spacing, origin and direction
passed to the call; the input image `img` supplies only voxel data, which is
not modelled here. -/
def resampleCall (img : VolumeGrid) (dims : Fin 3 → ℤ) (o : Fin 3 → ℚ) (L : ℚ)
    (dir : Fin 3 → Fin 3 → ℚ) : VolumeGrid :=
  { size := dims, spacing := fun _ => L, origin := o, direction := dir }

/-- C6: for every discovered input volume, the resampling of src/main.py
lines 40-54 produces a volume whose origin and direction equal those of the
reference (largest) volume, whose spacing is `voxel_resample_length` on all
three axes, and whose dimensions are the round-half-up of
`reference size * reference spacing / voxel_resample_length` per axis. -/
theorem resample_geometry (ref img : VolumeGrid) (L : ℚ)
    (hL : 0 < L) (hsp : ∀ a, 0 ≤ ref.spacing a) (hsz : ∀ a, 0 ≤ ref.size a) :
    ∃ scale, computeScale ref L = .ok scale ∧
      ((resampleCall img (target_dim scale ref) ref.origin L ref.direction).origin
          = ref.origin ∧
        (resampleCall img (target_dim scale ref) ref.origin L ref.direction).direction
          = ref.direction ∧
        (∀ a, (resampleCall img (target_dim scale ref) ref.origin L ref.direction).spacing a
          = L) ∧
        (∀ a, (resampleCall img (target_dim scale ref) ref.origin L ref.direction).size a
          = roundHalfUp ((ref.size a : ℚ) * ref.spacing a / L))) := by
  refine ⟨fun a => ref.spacing a / L, ?_, rfl, rfl, fun a => rfl, fun a => ?_⟩
  · simp only [computeScale, if_neg (ne_of_gt hL)]
  · show pyInt (ref.spacing a / L * (ref.size a : ℚ) + 1 / 2)
      = ⌊(ref.size a : ℚ) * ref.spacing a / L + 1 / 2⌋
    have h1 : (0 : ℚ) ≤ ref.spacing a / L := div_nonneg (hsp a) (le_of_lt hL)
    have h2 : (0 : ℚ) ≤ (ref.size a : ℚ) := by exact_mod_cast hsz a
    have hnn : 0 ≤ ref.spacing a / L * (ref.size a : ℚ) + 1 / 2 := by
      have := mul_nonneg h1 h2
      linarith
    rw [pyInt, if_pos hnn]
    have hcomm : ref.spacing a / L * (ref.size a : ℚ)
        = (ref.size a : ℚ) * ref.spacing a / L := by ring
    rw [hcomm]

/-- The reference grid used by concrete witnesses: a 10-voxel cube at unit
spacing with identity direction. -/
def refGrid : VolumeGrid :=
  { size := fun _ => 10, spacing := fun _ => 1, origin := fun _ => 0,
    direction := fun i j => if i = j then 1 else 0 }

/-- Witness for C6: resampling the unit-spacing 10-cube to spacing 1/2. -/
theorem resample_geometry_wit :
    ∃ scale, computeScale refGrid (1 / 2) = .ok scale ∧
      ((resampleCall refGrid (target_dim scale refGrid) refGrid.origin (1 / 2)
          refGrid.direction).origin = refGrid.origin ∧
        (resampleCall refGrid (target_dim scale refGrid) refGrid.origin (1 / 2)
          refGrid.direction).direction = refGrid.direction ∧
        (∀ a, (resampleCall refGrid (target_dim scale refGrid) refGrid.origin (1 / 2)
          refGrid.direction).spacing a = 1 / 2) ∧
        (∀ a, (resampleCall refGrid (target_dim scale refGrid) refGrid.origin (1 / 2)
          refGrid.direction).size a
          = roundHalfUp ((refGrid.size a : ℚ) * refGrid.spacing a / (1 / 2)))) :=
  resample_geometry refGrid refGrid (1 / 2) (by norm_num)
    (fun _ => by norm_num [refGrid]) (fun _ => by norm_num [refGrid])

/-- `np.prod(img.GetSize())` (src/main.py line 36). -/
def prodSize (g : VolumeGrid) : ℤ := g.size 0 * g.size 1 * g.size 2

/-- The reference-frame selection (src/main.py lines 31-39): keep the first
discovered image, replacing it whenever a strictly larger one (by voxel
count) appears; `none` when no file was discovered. -/
def selectLargest (l : List VolumeGrid) : Option VolumeGrid :=
  l.foldl
    (fun acc img =>
      match acc with
      | none => some img
      | some cur => if prodSize cur < prodSize img then some img else some cur)
    none

/-- The run configuration (src/main.py lines 15-25), with Python floats
modelled as rationals and the defaults of the dataclass. -/
structure Config where
  input_dir : String := "."
  voxel_resample_length : ℚ := 3 / 10
  closing_radius : ℕ := 3
  smoothing_distance : ℚ := 3 / 10
  smoothing_relaxation_factor : ℚ := 1 / 100
  smoothing_iterations : ℕ := 1000
  remesh_edge_length : ℚ := 1
  output_dir : String := "output"
  output_format : String := "vtp"

/-- Observable outcome of a run of `main`: whether the output directory was
created (src/main.py lines 73-75), the files written into it in order, and
the uncaught error if the run aborted. -/
structure RunResult where
  outputDirCreated : Bool
  written : List String
  err : Option MainErr
  deriving DecidableEq

/-- The per-structure loop (src/main.py lines 80-110): each structure is
extracted, cleaned, remeshed and written as `<name>.<format>`.  `procOk i`
abstracts whether the external extract/clean/remesh calls succeed for
structure `i` (they raise, for example, when the structure's label yields
zero triangles).  The loop body contains no exception handler, so the first
failure aborts the whole run. -/
def structureLoop (fmt : String) (procOk : ℕ → Bool) :
    List String → ℕ → List String → RunResult
  | [], _, w => ⟨true, w, none⟩
  | n :: rest, i, w =>
    if procOk i then structureLoop fmt procOk rest (i + 1) (w ++ [n ++ "." ++ fmt])
    else ⟨true, w, some (.structureFail i)⟩

/-- Control-flow and output skeleton of `main` (src/main.py lines 28-110):
discovery yields named grids; the largest is the reference (`None` when no
file was found, so line 40 raises AttributeError); the scale computation of
line 42 divides by the resample length; then the output directory is created,
`config.json` is written (lines 73-78) and the per-structure loop runs.  The
numeric content of resampling, closing and compositing is modelled separately
above; no repository code between line 43 and line 73 can raise on its own
account, so no further failure point is modelled there. -/
def mainModel (cfg : Config) (inputs : List (String × VolumeGrid))
    (procOk : ℕ → Bool) : RunResult :=
  match selectLargest (inputs.map Prod.snd) with
  | none => ⟨false, [], some .attributeNone⟩
  | some ref =>
    match computeScale ref cfg.voxel_resample_length with
    | .error e => ⟨false, [], some e⟩
    | .ok _ => structureLoop cfg.output_format procOk (inputs.map Prod.fst) 0
        ["config.json"]

/-- C10: with no discovered input volumes, `main` fails (line 40 accesses
`largest_image` which is still `None`) before the output directory is
created and before any file is written. -/
theorem no_inputs_fails_before_output (cfg : Config) (procOk : ℕ → Bool) :
    mainModel cfg [] procOk = ⟨false, [], some .attributeNone⟩ := rfl

lemma selectLargest_foldl_some (l : List VolumeGrid) :
    ∀ c : VolumeGrid,
      ∃ r, l.foldl
        (fun acc img =>
          match acc with
          | none => some img
          | some cur => if prodSize cur < prodSize img then some img else some cur)
        (some c) = some r := by
  induction l with
  | nil => intro c; exact ⟨c, rfl⟩
  | cons g tl ih =>
    intro c
    simp only [List.foldl_cons]
    rcases lt_or_le (prodSize c) (prodSize g) with h | h
    · rw [if_pos h]
      exact ih g
    · rw [if_neg (not_lt.mpr h)]
      exact ih c

lemma selectLargest_some (name : String) (g : VolumeGrid)
    (rest : List (String × VolumeGrid)) :
    ∃ r, selectLargest (((name, g) :: rest).map Prod.snd) = some r := by
  simp only [List.map_cons, selectLargest, List.foldl_cons]
  exact selectLargest_foldl_some (rest.map Prod.snd) g

/-- The configuration with a zero resample length used by the geometry-error
counterexample. -/
def cfgZero : Config := { voxel_resample_length := 0 }

/-- C9 counterexample: with a non-positive (zero) target spacing the run does
abort before any output, but with Python's ZeroDivisionError from line 42,
not with the spec's `InvalidGeometry`, which the source never raises. -/
theorem nonpositive_spacing_error_cex :
    mainModel cfgZero [("a", refGrid)] (fun _ => true)
      = ⟨false, [], some .zeroDivision⟩ ∧
    MainErr.zeroDivision ≠ MainErr.invalidGeometry := by
  constructor
  · rfl
  · decide

/-- C9 (amended): the source performs no geometry validation and never
raises an `InvalidGeometry`; a zero `voxel_resample_length` makes line 42
raise ZeroDivisionError, and the run aborts before the output directory is
created or anything is written.  Negative or zero source spacings are passed
to the external resampler unvalidated. -/
theorem zero_spacing_aborts_before_output (cfg : Config)
    (inputs : List (String × VolumeGrid)) (procOk : ℕ → Bool)
    (h0 : cfg.voxel_resample_length = 0) (hne : inputs ≠ []) :
    mainModel cfg inputs procOk = ⟨false, [], some .zeroDivision⟩ := by
  cases inputs with
  | nil => exact absurd rfl hne
  | cons a rest =>
    obtain ⟨n, g⟩ := a
    obtain ⟨r, hsel⟩ := selectLargest_some n g rest
    have hcs : computeScale r cfg.voxel_resample_length = .error .zeroDivision := by
      simp [computeScale, h0]
    simp only [List.map_cons] at hsel
    simp [mainModel, hsel, hcs]

/-- Witness for the amended C9. -/
theorem zero_spacing_aborts_before_output_wit :
    mainModel cfgZero [("a", refGrid), ("b", refGrid)] (fun _ => true)
      = ⟨false, [], some .zeroDivision⟩ :=
  zero_spacing_aborts_before_output cfgZero _ _ rfl (List.cons_ne_nil _ _)

/-- A run configuration with unit resample length, used by the per-structure
loop counterexample and witnesses. -/
def cfgRun : Config := { voxel_resample_length := 1 }

/-- C4 counterexample: when the external processing of the first structure
fails (as it does when its label yields zero extracted triangles), the loop
of src/main.py lines 80-110 has no handler: no `EmptySurface` is raised, no
structure is skipped with a warning, and the second structure's mesh file is
never written. -/
theorem empty_surface_abort_cex :
    mainModel cfgRun [("a", refGrid), ("b", refGrid)] (fun i => i != 0)
      = ⟨true, ["config.json"], some (.structureFail 0)⟩ ∧
    "b.vtp" ∉ (mainModel cfgRun [("a", refGrid), ("b", refGrid)]
      (fun i => i != 0)).written := by
  refine ⟨rfl, ?_⟩
  decide

lemma structureLoop_first_fail (fmt : String) (procOk : ℕ → Bool) :
    ∀ (names : List String) (k i0 : ℕ) (w : List String),
      k < names.length → procOk (i0 + k) = false →
      (∀ j, j < k → procOk (i0 + j) = true) →
      structureLoop fmt procOk names i0 w =
        ⟨true, w ++ (names.take k).map (fun n => n ++ "." ++ fmt),
          some (.structureFail (i0 + k))⟩ := by
  intro names
  induction names with
  | nil => intro k i0 w hk _ _; exact absurd hk (by simp)
  | cons n rest ih =>
    intro k i0 w hk hfail hok
    cases k with
    | zero =>
      have hf : procOk i0 = false := hfail
      simp [structureLoop, hf]
    | succ k =>
      have h0 : procOk i0 = true := by
        have := hok 0 (Nat.succ_pos k)
        simpa using this
      have hrw : i0 + 1 + k = i0 + (k + 1) := by omega
      have hk' : k < rest.length := by
        simp only [List.length_cons] at hk
        omega
      have hfail' : procOk (i0 + 1 + k) = false := by rw [hrw]; exact hfail
      have hok' : ∀ j, j < k → procOk (i0 + 1 + j) = true := by
        intro j hj
        have := hok (j + 1) (by omega)
        have hrj : i0 + 1 + j = i0 + (j + 1) := by omega
        rw [hrj]; exact this
      have hind := ih k (i0 + 1) (w ++ [n ++ "." ++ fmt]) hk' hfail' hok'
      simp only [structureLoop, h0, if_true]
      rw [hind, hrw]
      simp [List.take_succ_cons, List.append_assoc]

/-- C4 (amended): the loop of src/main.py lines 80-110 contains no error
handling, so if the processing of structure `i` fails (e.g. its label yields
zero triangles) the run aborts at that point: `config.json` and the meshes
of the structures before `i` have been written, and no later structure is
processed or written; no `EmptySurface` error or warning exists in the
source. -/
theorem structure_failure_halts_run (cfg : Config)
    (inputs : List (String × VolumeGrid)) (procOk : ℕ → Bool) (i : ℕ)
    (hL : cfg.voxel_resample_length ≠ 0) (hi : i < inputs.length)
    (hfail : procOk i = false) (hok : ∀ j, j < i → procOk j = true) :
    mainModel cfg inputs procOk =
      ⟨true, "config.json" ::
          ((inputs.map Prod.fst).take i).map (fun n => n ++ "." ++ cfg.output_format),
        some (.structureFail i)⟩ := by
  cases inputs with
  | nil => exact absurd hi (by simp)
  | cons a rest =>
    obtain ⟨n, g⟩ := a
    obtain ⟨r, hsel⟩ := selectLargest_some n g rest
    have hcs : computeScale r cfg.voxel_resample_length
        = .ok (fun a => r.spacing a / cfg.voxel_resample_length) := by
      simp [computeScale, hL]
    have hloop := structureLoop_first_fail cfg.output_format procOk
      (((n, g) :: rest).map Prod.fst) i 0 ["config.json"]
      (by simpa using hi) (by simpa using hfail)
      (fun j hj => by simpa using hok j hj)
    simp only [Nat.zero_add] at hloop
    simp only [List.map_cons] at hsel hloop ⊢
    simp [mainModel, hsel, hcs, hloop]

/-- Witness for the amended C4: the second of three structures fails, so
`config.json` and the first mesh are written and the third is not. -/
theorem structure_failure_halts_run_wit :
    mainModel cfgRun [("a", refGrid), ("b", refGrid), ("c", refGrid)]
        (fun i => i != 1) =
      ⟨true, "config.json" ::
          ((([("a", refGrid), ("b", refGrid), ("c", refGrid)].map Prod.fst).take 1).map
            (fun n => n ++ "." ++ cfgRun.output_format)),
        some (.structureFail 1)⟩ :=
  structure_failure_halts_run cfgRun _ _ 1 (by norm_num [cfgRun]) (by decide)
    rfl (fun j hj => by interval_cases j; rfl)

/-- `num_clusters = int(T * (v / e) ** 2 / 2)` (src/main.py line 100), with
`T` the cleaned mesh's triangle count, `v` the resample voxel length and `e`
the target edge length; Python raises ZeroDivisionError when `e` is zero. -/
def num_clusters (T : ℕ) (v e : ℚ) : Except MainErr ℤ :=
  if e = 0 then .error .zeroDivision
  else .ok (pyInt ((T : ℚ) * (v / e) ^ 2 / 2))

/-- C3 counterexample: for 3 triangles with v = e = 1 the code requests
`int(1.5) = 1` clusters while round-to-nearest gives 2. -/
theorem num_clusters_round_cex :
    num_clusters 3 1 1 = .ok 1 ∧ round ((3 : ℚ) * (1 / 1) ^ 2 / 2) = 2 := by
  constructor
  · show (if (1 : ℚ) = 0 then _ else _) = _
    rw [if_neg (by norm_num)]
    congr 1
    show pyInt ((3 : ℚ) * (1 / 1) ^ 2 / 2) = 1
    rw [pyInt, if_pos (by norm_num)]
    norm_num
  · rw [round_eq]
    norm_num

/-- C3 (amended): the cluster count requested from the remesher at
src/main.py line 100 is the truncation (floor, the quantity being
nonnegative) of `T * (v / e)^2 / 2`, not its round-to-nearest. -/
theorem num_clusters_floor (T : ℕ) (v e : ℚ) (he : e ≠ 0) :
    num_clusters T v e = .ok ⌊(T : ℚ) * (v / e) ^ 2 / 2⌋ := by
  rw [num_clusters, if_neg he]
  congr 1
  have hnn : (0 : ℚ) ≤ (T : ℚ) * (v / e) ^ 2 / 2 := by positivity
  rw [pyInt, if_pos hnn]

/-- Witness for the amended C3: five triangles at v = 1, e = 2. -/
theorem num_clusters_floor_wit :
    num_clusters 5 1 2 = .ok ⌊(5 : ℚ) * (1 / 2) ^ 2 / 2⌋ :=
  num_clusters_floor 5 1 2 (by norm_num)

/-- A mesh vertex position, with rational coordinates. -/
abbrev Pt : Type := ℚ × ℚ × ℚ

/-- Componentwise sum of two positions. -/
def padd (a b : Pt) : Pt := (a.1 + b.1, a.2.1 + b.2.1, a.2.2 + b.2.2)

/-- Componentwise difference of two positions. -/
def psub (a b : Pt) : Pt := (a.1 - b.1, a.2.1 - b.2.1, a.2.2 - b.2.2)

/-- Scaling of a position by a rational factor. -/
def psmul (r : ℚ) (a : Pt) : Pt := (r * a.1, r * a.2.1, r * a.2.2)

/-- Squared Euclidean distance between two positions (kept squared so that
all arithmetic stays rational). -/
def distSq (a b : Pt) : ℚ :=
  (a.1 - b.1) ^ 2 + (a.2.1 - b.2.1) ^ 2 + (a.2.2 - b.2.2) ^ 2

/-- Centroid of a nonempty list of positions. -/
def centroidOf (l : List Pt) : Pt :=
  psmul (1 / (l.length : ℚ)) (l.foldl padd (0, 0, 0))

/-- Modelled from the spec: one iteration of the constrained smoothing pass
of the surface extractor (§4.4), which in the source is performed by the
external smoother configured at src/main.py lines 85-87 and is not
repository code.  Each vertex is displaced toward the centroid of its
neighbors by the relaxation factor `relax`, and the move is rejected when it
would take the vertex farther than the constraint distance `D` from its
original extracted position `orig`. -/
def smoothStep (orig pos : ℕ → Pt) (nbrs : ℕ → List ℕ) (relax D : ℚ) : ℕ → Pt :=
  fun v =>
    match (nbrs v).map pos with
    | [] => pos v
    | ns@(_ :: _) =>
      let c := centroidOf ns
      let cand := padd (pos v) (psmul relax (psub c (pos v)))
      if distSq cand (orig v) ≤ D ^ 2 then cand else pos v

/-- Modelled from the spec: `n` iterations of the constrained smoothing pass
(§4.4), starting from the raw extracted positions `orig`. -/
def smoothIter (orig : ℕ → Pt) (nbrs : ℕ → List ℕ) (relax D : ℚ) : ℕ → ℕ → Pt
  | 0 => orig
  | n + 1 => smoothStep orig (smoothIter orig nbrs relax D n) nbrs relax D

/-- C5: after any number of constrained smoothing iterations, no vertex lies
farther than the constraint distance `D` (the configuration's
`smoothing_distance`) from its position in the raw extracted mesh; stated on
squared distances, which for `D ≥ 0` is exactly the claimed bound. -/
theorem smoothing_constraint_bound (orig : ℕ → Pt) (nbrs : ℕ → List ℕ)
    (relax D : ℚ) (n v : ℕ) :
    distSq (smoothIter orig nbrs relax D n v) (orig v) ≤ D ^ 2 := by
  induction n with
  | zero =>
    show distSq (orig v) (orig v) ≤ D ^ 2
    have h : distSq (orig v) (orig v) = 0 := by simp [distSq]
    rw [h]
    positivity
  | succ n ih =>
    show distSq (smoothStep orig (smoothIter orig nbrs relax D n) nbrs relax D v)
      (orig v) ≤ D ^ 2
    unfold smoothStep
    rcases hm : (nbrs v).map (smoothIter orig nbrs relax D n) with _ | ⟨x, xs⟩
    · simp only [hm]
      exact ih
    · simp only [hm]
      split_ifs with h
      · exact h
      · exact ih

/-- Integer offsets from `-r` to `r`. -/
def offsetRange (r : ℕ) : List ℤ :=
  (List.range (2 * r + 1)).map (fun k => (k : ℤ) - (r : ℤ))

/-- Modelled from the spec: the spherical (ball) structuring element of
radius `r` (§4.2) of the external grayscale morphological closing filter
invoked at src/main.py line 55, which is not repository code: all integer
offsets within Euclidean distance `r` of the origin. -/
def ballOffsets (r : ℕ) : List Voxel :=
  (offsetRange r).flatMap (fun x =>
    (offsetRange r).flatMap (fun y =>
      (offsetRange r).filterMap (fun z =>
        if x ^ 2 + y ^ 2 + z ^ 2 ≤ (r : ℤ) ^ 2 then some (x, y, z) else none)))

/-- Modelled from the spec: grayscale dilation (§4.2), the maximum of the
volume over the ball around each voxel.  The ball always contains the
origin, so folding from the voxel's own value is that maximum. -/
def dilate (r : ℕ) (f : Voxel → ℕ) : Voxel → ℕ :=
  fun p => ((ballOffsets r).map (fun o => f (voxAdd p o))).foldl max (f p)

/-- Modelled from the spec: grayscale erosion (§4.2), the minimum of the
volume over the ball around each voxel. -/
def erode (r : ℕ) (f : Voxel → ℕ) : Voxel → ℕ :=
  fun p => ((ballOffsets r).map (fun o => f (voxAdd p o))).foldl min (f p)

/-- Modelled from the spec: grayscale morphological closing (§4.2), dilation
followed by erosion with the ball of radius `r`; the source invokes the
external filter at src/main.py line 55 with radius `closing_radius`. -/
def closing (r : ℕ) (f : Voxel → ℕ) : Voxel → ℕ := erode r (dilate r f)

lemma ballOffsets_zero : ballOffsets 0 = [(0, 0, 0)] := by decide

lemma voxAdd_zero (p : Voxel) : voxAdd p 0 = p := by
  obtain ⟨x, y, z⟩ := p
  simp [voxAdd]

/-- C8: morphological closing with radius 0 returns a volume equal to its
input at every voxel. -/
theorem closing_zero_identity (f : Voxel → ℕ) (p : Voxel) :
    closing 0 f p = f p := by
  unfold closing erode dilate
  rw [ballOffsets_zero]
  simp [voxAdd_zero]
